import Mathlib

/-!
Verification of the VRS-resolution and CRS-decomposition core of
`pdgsubsurface` (PermafrostDiscoveryGateway/viz-subsurface).

The embedding models `geoid.use_model`, `geoid.crs_to_wgs84` and
`utils.get_epsgs_from_wkt`.  External capabilities (the `pyegt`
model catalog, the `pyproj` WKT parser and transformer) are passed in as
function parameters; Python optional strings become `Option String`,
Python truthiness is modelled explicitly, `exit(1)` and returned values
are the constructors of an outcome type, and raised parse errors become
`Except` errors.
-/

/-- A Python value returned by `use_model`: the source can return a model
name string, the integer `0`, or fall through returning `None`. -/
inductive PyValue where
  | pstr (s : String)
  | pint (n : Int)
  | pnone
deriving DecidableEq, Repr

/-- Outcome of a `use_model` call: either a normal return of a Python value,
or process termination via `exit(code)`. -/
inductive ResolveOutcome where
  | ret (v : PyValue)
  | exitFail (code : Nat)
deriving DecidableEq, Repr

/-- Python truthiness of an optional string: `None` and `""` are falsy,
every other string is truthy. -/
def strTruthy : Option String → Bool
  | none => false
  | some s => !(s == "")

/-- The Python `return vrs` at the end of `use_model`, where `vrs` is either
a string from `model_search` or `None`. -/
def pyReturn : Option String → ResolveOutcome
  | none => ResolveOutcome.ret PyValue.pnone
  | some s => ResolveOutcome.ret (PyValue.pstr s)

/-- Embedding of `geoid.use_model(user_vrs, las_vrs)`.  The external
`pyegt.utils.model_search` catalog lookup is a parameter returning
`some canonical_name` on a match and `none` otherwise.  Logging calls are
side-effect free and are dropped; `exit(1)` becomes `ResolveOutcome.exitFail 1`.
The branch structure follows the source: if `las_vrs` is truthy its catalog
result is used (exiting when `user_vrs` is truthy but the catalog found
nothing, and otherwise returning the catalog result as-is — including the
scenario-7 fall-through that returns `None`); otherwise an absent `user_vrs`
returns `0`, and a present one is looked up, exiting on no match. -/
def use_model (model_search : String → Option String)
    (user_vrs : Option String) (las_vrs : Option String) : ResolveOutcome :=
  if strTruthy las_vrs then
    let vrs := model_search (las_vrs.getD "")
    if strTruthy user_vrs && !(strTruthy vrs) then
      ResolveOutcome.exitFail 1
    else
      pyReturn vrs
  else
    if !(strTruthy user_vrs) then
      ResolveOutcome.ret (PyValue.pint 0)
    else
      let vrs := model_search (user_vrs.getD "")
      if strTruthy vrs then
        pyReturn vrs
      else
        ResolveOutcome.exitFail 1

/-- One sub-CRS as exposed by the `pyproj` parsing capability: its
vertical/horizontal flag, its optional EPSG code (`to_epsg()` may return
`None`), and its display name. -/
structure CrsNode where
  is_vertical : Bool
  epsg : Option Int
  name : String
deriving DecidableEq, Repr

/-- A parsed CRS handle as exposed by `pyproj.CRS`: whether it is compound,
its sub-CRS list, and its own vertical flag, EPSG code and name (used when
it is not compound). -/
structure PyCRS where
  is_compound : Bool
  sub_crs_list : List CrsNode
  is_vertical : Bool
  epsg : Option Int
  name : String
deriving DecidableEq, Repr

/-- The view of a CRS handle as a single classified node (its own flag,
EPSG code and name), used by the non-compound branch of
`get_epsgs_from_wkt`. -/
def selfNode (crs : PyCRS) : CrsNode :=
  ⟨crs.is_vertical, crs.epsg, crs.name⟩

/-- The four extraction slots of `get_epsgs_from_wkt`:
`epsg_h, epsg_v, h_name, v_name`, all initialised to `None`. -/
structure CrsSlots where
  epsg_h : Option Int
  epsg_v : Option Int
  h_name : Option String
  v_name : Option String
deriving DecidableEq, Repr

/-- The initial slot values of `get_epsgs_from_wkt`. -/
def emptySlots : CrsSlots := ⟨none, none, none, none⟩

/-- The loop body of `get_epsgs_from_wkt`: a vertical sub-CRS overwrites the
vertical slots, any other sub-CRS overwrites the horizontal slots. -/
def classify_step (acc : CrsSlots) (c : CrsNode) : CrsSlots :=
  if c.is_vertical then
    { acc with epsg_v := c.epsg, v_name := some c.name }
  else
    { acc with epsg_h := c.epsg, h_name := some c.name }

/-- The spec's parse-error taxonomy for this core: an unparsable WKT string,
or a source-CRS specifier of unrecognized shape in the reprojection helper
(in the source the latter surfaces as the `crs` local never being bound). -/
inductive ParseError where
  | malformedWkt
  | unrecognizedCrsSpecifier
deriving DecidableEq, Repr

/-- Successful result of `get_epsgs_from_wkt`: the parsed CRS handle, the
four extracted slots, and whether the more-than-two-sub-systems warning was
logged (the source's `L.warning` call, modelled as a Boolean flag). -/
structure DecomposeResult where
  crs : PyCRS
  slots : CrsSlots
  warned : Bool
deriving DecidableEq, Repr

/-- Embedding of `utils.get_epsgs_from_wkt(wkt)`.  The external
`pyproj.CRS.from_wkt` parser is a parameter returning `none` when it raises;
that failure propagates as `ParseError.malformedWkt` before any slot is
populated.  A compound CRS folds `classify_step` over its sub-CRS list in
order (later entries of the same classification overwrite earlier ones) and
warns when the list has more than two entries; a non-compound CRS classifies
itself into exactly one slot pair. -/
def get_epsgs_from_wkt (parse : String → Option PyCRS) (wkt : String) :
    Except ParseError DecomposeResult :=
  match parse wkt with
  | none => Except.error ParseError.malformedWkt
  | some crs =>
    if crs.is_compound then
      Except.ok ⟨crs, crs.sub_crs_list.foldl classify_step emptySlots,
        decide (crs.sub_crs_list.length > 2)⟩
    else
      Except.ok ⟨crs, classify_step emptySlots (selfNode crs), false⟩

/-- The shapes a `from_crs` argument to `crs_to_wgs84` can take: the typed
union `int | CRS | str` from the source signature, plus a catch-all for a
value of any unrecognized type (described by a string), which the dispatch
does not handle. -/
inductive CrsSpecifier where
  | epsg (n : Int)
  | handle (c : PyCRS)
  | strSpec (s : String)
  | otherVal (v : String)
deriving DecidableEq, Repr

/-- Membership of one character list in another, used for the Python
`"AUTHORITY" in from_crs` substring test. -/
def containsSub (needle : List Char) : List Char → Bool
  | [] => needle.isEmpty
  | c :: t => needle.isPrefixOf (c :: t) || containsSub needle t

/-- The source's WKT auto-detection on a string specifier: the substring
test `"AUTHORITY" in from_crs`. -/
def hasAuthority (s : String) : Bool :=
  containsSub "AUTHORITY".toList s.toList

/-- Embedding of `geoid.crs_to_wgs84(x, y, from_crs)`.  The external
capabilities `CRS.from_epsg`, `CRS.from_wkt`, `CRS.from_string` and the
`Transformer` application to the fixed WGS 84 target (`from_epsg 4326`) and
the given coordinates are parameters; only the dispatch on the shape of
`from_crs` is this function's own logic.  A specifier of unrecognized shape
leaves the `crs` local unbound in the source, so the call fails: modelled
as `ParseError.unrecognizedCrsSpecifier`. -/
def crs_to_wgs84 {α : Type} (from_epsg : Int → PyCRS)
    (from_wkt : String → PyCRS) (from_string : String → PyCRS)
    (transform : PyCRS → PyCRS → α) (from_crs : CrsSpecifier) :
    Except ParseError α :=
  match from_crs with
  | CrsSpecifier.epsg n => Except.ok (transform (from_epsg n) (from_epsg 4326))
  | CrsSpecifier.handle c => Except.ok (transform c (from_epsg 4326))
  | CrsSpecifier.strSpec s =>
      Except.ok (transform (if hasAuthority s then from_wkt s else from_string s)
        (from_epsg 4326))
  | CrsSpecifier.otherVal _ => Except.error ParseError.unrecognizedCrsSpecifier

/-- The last element of a list satisfying a predicate, if any: the
specification-side characterisation of which sub-CRS survives the
overwriting fold of `get_epsgs_from_wkt`. -/
def lastMatching (p : CrsNode → Bool) : List CrsNode → Option CrsNode
  | [] => none
  | c :: t =>
    match lastMatching p t with
    | some d => some d
    | none => if p c then some c else none

/-- The EPSG code of the last sub-CRS of a given classification, if any. -/
def lastEpsg (p : CrsNode → Bool) (l : List CrsNode) : Option Int :=
  (lastMatching p l).elim none (fun c => c.epsg)

/-- The name of the last sub-CRS of a given classification, if any. -/
def lastName (p : CrsNode → Bool) (l : List CrsNode) : Option String :=
  (lastMatching p l).elim none (fun c => some c.name)

/-- A concrete catalog used to instantiate theorems: it recognises exactly
the hint `"NAVD88"`. -/
def demo_catalog : String → Option String :=
  fun s => if s = "NAVD88" then some "NAVD88 height (EPSG:5703)" else none

theorem foldl_classify_step (l : List CrsNode) (acc : CrsSlots) :
    l.foldl classify_step acc =
      { epsg_h := (lastMatching (fun c => !c.is_vertical) l).elim acc.epsg_h
          (fun c => c.epsg),
        epsg_v := (lastMatching (fun c => c.is_vertical) l).elim acc.epsg_v
          (fun c => c.epsg),
        h_name := (lastMatching (fun c => !c.is_vertical) l).elim acc.h_name
          (fun c => some c.name),
        v_name := (lastMatching (fun c => c.is_vertical) l).elim acc.v_name
          (fun c => some c.name) } := by
  induction l generalizing acc with
  | nil => simp [lastMatching]
  | cons c t ih =>
    rw [List.foldl_cons, ih (classify_step acc c)]
    cases hv : c.is_vertical <;>
      cases h1 : lastMatching (fun c => c.is_vertical) t <;>
        cases h2 : lastMatching (fun c => !c.is_vertical) t <;>
          simp [lastMatching, classify_step, hv, h1, h2]

/-- C1: claimed — in scenario 7 (truthy `las_vrs` with no catalog match,
absent `user_vrs`) `use_model` fails rather than returning a value.  The
source instead only logs the error and falls through to `return vrs`,
returning Python `None`, contradicting the scenario table in its own
docstring (`# 7. unmatched las_vrs / empty user_vrs -> exit(1)`).  This
theorem evaluates the embedding at such an input. -/
theorem use_model_scenario7_returns_none :
    use_model (fun _ => none) none (some "NAD83(2011)") =
      ResolveOutcome.ret PyValue.pnone := by
  rfl

/-- C2: claimed — every `use_model` call yields a model string, the `0`
sentinel, or a failure, never any other value such as `None`.  The
scenario-7 fall-through produces a fourth outcome, the Python `None`
return, which is none of the three claimed classes. -/
theorem use_model_produces_none_value :
    use_model (fun _ => none) none (some "EGM96 geoid") =
        ResolveOutcome.ret PyValue.pnone ∧
      (∀ s, ResolveOutcome.ret PyValue.pnone ≠ ResolveOutcome.ret (PyValue.pstr s)) ∧
      ResolveOutcome.ret PyValue.pnone ≠ ResolveOutcome.ret (PyValue.pint 0) ∧
      (∀ c, ResolveOutcome.ret PyValue.pnone ≠ ResolveOutcome.exitFail c) := by
  refine ⟨rfl, fun s h => ?_, fun h => ?_, fun c h => ?_⟩ <;> simp at h

/-- C3: in scenario 8 — truthy `las_vrs` the catalog does not match, and a
truthy `user_vrs` that the catalog would match — `use_model` exits with
code 1; the matching user hint is never used as a fallback. -/
theorem use_model_unmatched_las_exits
    (model_search : String → Option String) (u l m : String)
    (hu : u ≠ "") (hl : l ≠ "")
    (hlm : model_search l = none) (hum : model_search u = some m)
    (hm : m ≠ "") :
    use_model model_search (some u) (some l) = ResolveOutcome.exitFail 1 := by
  simp [use_model, strTruthy, hlm, hl, hu]

/-- C3 witness: a concrete catalog matching `"NAVD88"` but not `"XYZ"`. -/
theorem use_model_unmatched_las_exits_w :
    use_model demo_catalog (some "NAVD88") (some "XYZ") =
      ResolveOutcome.exitFail 1 :=
  use_model_unmatched_las_exits demo_catalog "NAVD88" "XYZ"
    "NAVD88 height (EPSG:5703)" (by decide) (by decide) (by rfl) (by rfl)
    (by decide)

/-- C4: scenarios 1–3 — when `las_vrs` is truthy and the catalog matches it
(with a truthy canonical name), `use_model` returns that canonical match for
every possible `user_vrs`; the user hint never influences the result. -/
theorem use_model_authoritative_match_wins
    (model_search : String → Option String) (user_vrs : Option String)
    (l m : String) (hl : l ≠ "") (hm : model_search l = some m)
    (hm' : m ≠ "") :
    use_model model_search user_vrs (some l) =
      ResolveOutcome.ret (PyValue.pstr m) := by
  simp [use_model, strTruthy, hm, hl, hm', pyReturn]

/-- C4 witness: with the concrete catalog, a contrary user hint is
overridden by the matched authoritative hint. -/
theorem use_model_authoritative_match_wins_w :
    use_model demo_catalog (some "EGM2008") (some "NAVD88") =
      ResolveOutcome.ret (PyValue.pstr "NAVD88 height (EPSG:5703)") :=
  use_model_authoritative_match_wins demo_catalog (some "EGM2008") "NAVD88"
    "NAVD88 height (EPSG:5703)" (by decide) (by rfl) (by decide)

/-- C5: scenario 4 — with both hints absent, `use_model` returns the
integer-zero "no correction" sentinel, for every catalog. -/
theorem use_model_both_absent_zero (model_search : String → Option String) :
    use_model model_search none none = ResolveOutcome.ret (PyValue.pint 0) := by
  rfl

/-- C10: an empty-string hint is treated like an absent one — for every
catalog and every combination of `none` and `""` in the two hints,
`use_model` returns the zero sentinel; since the catalog is universally
quantified, no lookup of the empty string can influence the outcome, and no
failure occurs. -/
theorem use_model_empty_as_absent (model_search : String → Option String)
    (user_vrs las_vrs : Option String)
    (hu : user_vrs = none ∨ user_vrs = some "")
    (hl : las_vrs = none ∨ las_vrs = some "") :
    use_model model_search user_vrs las_vrs =
      ResolveOutcome.ret (PyValue.pint 0) := by
  rcases hu with rfl | rfl <;> rcases hl with rfl | rfl <;> rfl

/-- C10 witness: both hints empty strings, under the concrete catalog. -/
theorem use_model_empty_as_absent_w :
    use_model demo_catalog (some "") (some "") =
      ResolveOutcome.ret (PyValue.pint 0) :=
  use_model_empty_as_absent demo_catalog (some "") (some "")
    (Or.inr rfl) (Or.inr rfl)

/-- C6: `crs_to_wgs84` dispatches on the shape of the source-CRS specifier —
EPSG integer via `from_epsg`, already-resolved handle used as-is, string via
`from_wkt` when it carries the authority marker and `from_string` otherwise —
and every specifier of unrecognized shape yields exactly the
`unrecognizedCrsSpecifier` parse error, never a value or another error. -/
theorem crs_to_wgs84_dispatch {α : Type} (from_epsg : Int → PyCRS)
    (from_wkt : String → PyCRS) (from_string : String → PyCRS)
    (transform : PyCRS → PyCRS → α) (n : Int) (c : PyCRS) (s v : String) :
    crs_to_wgs84 from_epsg from_wkt from_string transform (CrsSpecifier.epsg n)
        = Except.ok (transform (from_epsg n) (from_epsg 4326)) ∧
      crs_to_wgs84 from_epsg from_wkt from_string transform
          (CrsSpecifier.handle c)
        = Except.ok (transform c (from_epsg 4326)) ∧
      crs_to_wgs84 from_epsg from_wkt from_string transform
          (CrsSpecifier.strSpec s)
        = Except.ok (transform
            (if hasAuthority s then from_wkt s else from_string s)
            (from_epsg 4326)) ∧
      crs_to_wgs84 from_epsg from_wkt from_string transform
          (CrsSpecifier.otherVal v)
        = Except.error ParseError.unrecognizedCrsSpecifier :=
  ⟨rfl, rfl, rfl, rfl⟩

/-- C7: on a compound CRS whose sub-CRS list holds exactly one horizontal and
one vertical entry (in either order), `get_epsgs_from_wkt` puts the
horizontal entry's EPSG code and name in the horizontal slots and the
vertical entry's in the vertical slots, without warning. -/
theorem get_epsgs_compound_two
    (parse : String → Option PyCRS) (wkt : String) (crs : PyCRS)
    (a b : CrsNode) (hp : parse wkt = some crs) (hc : crs.is_compound = true)
    (ha : a.is_vertical = false) (hb : b.is_vertical = true)
    (hl : crs.sub_crs_list = [a, b] ∨ crs.sub_crs_list = [b, a]) :
    get_epsgs_from_wkt parse wkt =
      Except.ok ⟨crs, ⟨a.epsg, b.epsg, some a.name, some b.name⟩, false⟩ := by
  rcases hl with hl | hl <;>
    simp [get_epsgs_from_wkt, hp, hc, hl, classify_step, emptySlots, ha, hb]

/-- A horizontal sub-CRS used to instantiate the decomposition theorems. -/
def nodeH : CrsNode := ⟨false, some 26905, "NAD83 / UTM zone 5N"⟩

/-- A second horizontal sub-CRS for the three-entry compound example. -/
def nodeH2 : CrsNode := ⟨false, some 32605, "WGS 84 / UTM zone 5N"⟩

/-- A vertical sub-CRS used to instantiate the decomposition theorems. -/
def nodeV : CrsNode := ⟨true, some 5703, "NAVD88 height"⟩

/-- A concrete two-entry compound CRS handle. -/
def demo_crs2 : PyCRS :=
  ⟨true, [nodeH, nodeV], false, none, "NAD83 / UTM zone 5N + NAVD88 height"⟩

/-- A concrete three-entry compound CRS handle. -/
def demo_crs3 : PyCRS :=
  ⟨true, [nodeH, nodeH2, nodeV], false, none, "Compound (three entries)"⟩

/-- C7 witness: a parser returning the two-entry compound handle. -/
theorem get_epsgs_compound_two_w :
    get_epsgs_from_wkt (fun _ => some demo_crs2) "COMPD_CS[...]" =
      Except.ok ⟨demo_crs2,
        ⟨some 26905, some 5703,
         some "NAD83 / UTM zone 5N", some "NAVD88 height"⟩, false⟩ :=
  get_epsgs_compound_two (fun _ => some demo_crs2) "COMPD_CS[...]"
    demo_crs2 nodeH nodeV rfl rfl rfl rfl (Or.inl rfl)

/-- C8: on a compound CRS with more than two sub-CRS entries,
`get_epsgs_from_wkt` sets the warning flag and still returns a result whose
slots hold the EPSG code and name of the last entry of each classification
in input order, earlier same-classification entries having been
overwritten. -/
theorem get_epsgs_compound_many
    (parse : String → Option PyCRS) (wkt : String) (crs : PyCRS)
    (hp : parse wkt = some crs) (hc : crs.is_compound = true)
    (hlen : 2 < crs.sub_crs_list.length) :
    get_epsgs_from_wkt parse wkt =
      Except.ok ⟨crs,
        ⟨lastEpsg (fun c => !c.is_vertical) crs.sub_crs_list,
         lastEpsg (fun c => c.is_vertical) crs.sub_crs_list,
         lastName (fun c => !c.is_vertical) crs.sub_crs_list,
         lastName (fun c => c.is_vertical) crs.sub_crs_list⟩, true⟩ := by
  simp [get_epsgs_from_wkt, hp, hc, foldl_classify_step, emptySlots,
    lastEpsg, lastName, hlen]

/-- C8 witness: the three-entry compound handle, where the second horizontal
entry overwrites the first and the warning flag is set. -/
theorem get_epsgs_compound_many_w :
    get_epsgs_from_wkt (fun _ => some demo_crs3) "COMPD_CS[3 entries]" =
      Except.ok ⟨demo_crs3,
        ⟨some 32605, some 5703,
         some "WGS 84 / UTM zone 5N", some "NAVD88 height"⟩, true⟩ := by
  have h := get_epsgs_compound_many (fun _ => some demo_crs3)
    "COMPD_CS[3 entries]" demo_crs3 rfl rfl (by decide)
  simpa [lastEpsg, lastName, lastMatching, demo_crs3, nodeH, nodeH2, nodeV]
    using h

/-- C9: when the WKT parser cannot parse the input, `get_epsgs_from_wkt`
fails with the `malformedWkt` parse error and returns no result at all — in
particular no partially populated description. -/
theorem get_epsgs_malformed (parse : String → Option PyCRS) (wkt : String)
    (hp : parse wkt = none) :
    get_epsgs_from_wkt parse wkt = Except.error ParseError.malformedWkt ∧
      ∀ r, get_epsgs_from_wkt parse wkt ≠ Except.ok r := by
  refine ⟨by simp [get_epsgs_from_wkt, hp], fun r h => ?_⟩
  rw [get_epsgs_from_wkt, hp] at h
  exact Except.noConfusion h

/-- C9 witness: an always-failing parser. -/
theorem get_epsgs_malformed_w :
    get_epsgs_from_wkt (fun _ => none) "not a wkt" =
        Except.error ParseError.malformedWkt ∧
      ∀ r, get_epsgs_from_wkt (fun _ => none) "not a wkt" ≠ Except.ok r :=
  get_epsgs_malformed (fun _ => none) "not a wkt" rfl
